import Mathlib

/-!
Verification of the VWAP-reversion trading bot.

Shallow embedding of the Python sources: `strategy.py` (signal classifier),
`indicators.py` (VWAP, data validation, latest-signal extraction),
`trader.py` (order execution against the broker), and the polling loops of
`vwap_bot.py` and `gui.py`.  Prices and quantities are rationals; pandas
cells that can hold NaN are modelled by an explicit `Val` type whose
comparisons follow IEEE semantics (every comparison with NaN is false).
-/

namespace VWAPBot

/-- A pandas/float cell value: a finite number or NaN. -/
inductive Val where
  | num (q : ℚ)
  | nan
deriving DecidableEq, Repr

/-- `pd.notna`: true exactly on finite numbers. -/
def pdNotna : Val → Bool
  | .num _ => true
  | .nan => false

/-- Python `a < b` on floats: false whenever either side is NaN. -/
def Val.ltb : Val → Val → Bool
  | .num a, .num b => decide (a < b)
  | _, _ => false

/-- Python `a > b` on floats. -/
def Val.gtb (a b : Val) : Bool := Val.ltb b a

/-- Multiply a cell by a finite scalar (e.g. `vwap * threshold`): NaN propagates. -/
def Val.mulQ : Val → ℚ → Val
  | .num a, q => .num (a * q)
  | .nan, _ => .nan

/-- Python `v > q` for a float cell against a finite parameter. -/
def Val.gtQb (v : Val) (q : ℚ) : Bool := Val.ltb (.num q) v

/-- The `signals` dict built by `get_latest_signals`; each entry may be
`None` (modelled by `Option`). -/
structure Signals where
  close : Option Val
  high : Option Val
  low : Option Val
  vwap : Option Val
  rsi : Option Val
deriving DecidableEq, Repr

/-- One entry of `self.previous_signals[symbol]`. -/
structure PrevSignal where
  price : Val
  vwap : Val
  signal : String
deriving DecidableEq, Repr

/-- The mutable state of `VWAPReversionStrategy` (`strategy.py`). -/
structure VWAPReversionStrategy where
  vwap_threshold_buy : ℚ
  vwap_threshold_sell : ℚ
  rsi_overbought : ℚ
  rsi_period : ℚ
  previous_signals : List (String × PrevSignal)
deriving DecidableEq, Repr

/-- Python dict assignment `d[k] = v` on an association list. -/
def dictSet (d : List (String × PrevSignal)) (k : String) (v : PrevSignal) :
    List (String × PrevSignal) :=
  match d with
  | [] => [(k, v)]
  | (k1, v1) :: rest =>
      if k1 = k then (k, v) :: rest else (k1, v1) :: dictSet rest k v

/-- Python membership test `k in d`. -/
def dictContains (d : List (String × PrevSignal)) (k : String) : Bool :=
  d.any (fun p => p.1 = k)

/-- `self.previous_signals[symbol]['signal'] = sig`. -/
def dictSetSignal (d : List (String × PrevSignal)) (k : String) (sig : String) :
    List (String × PrevSignal) :=
  match d with
  | [] => []
  | (k1, v1) :: rest =>
      if k1 = k then (k, { v1 with signal := sig }) :: rest
      else (k1, v1) :: dictSetSignal rest k sig

/-- `VWAPReversionStrategy.get_buy_signal` (strategy.py lines 44-90):
returns the boolean together with the updated strategy state. -/
def get_buy_signal (st : VWAPReversionStrategy) (signals : Option Signals)
    (symbol : String) : Bool × VWAPReversionStrategy :=
  match signals with
  | none => (false, st)
  | some s =>
    match s.close, s.vwap, s.high, s.low with
    | some current_price, some vwap, some _, some _ =>
        let price_below_threshold :=
          Val.ltb current_price (vwap.mulQ st.vwap_threshold_buy)
        let candle_closes_above_vwap := Val.gtb current_price vwap
        let price_not_too_low := Val.gtb current_price (vwap.mulQ (95 / 100))
        let buy_signal := price_below_threshold && candle_closes_above_vwap &&
          price_not_too_low
        let entry : PrevSignal :=
          { price := current_price, vwap := vwap,
            signal := if buy_signal then "buy" else "hold" }
        (buy_signal,
         { st with previous_signals := dictSet st.previous_signals symbol entry })
    | _, _, _, _ => (false, st)

/-- `VWAPReversionStrategy.get_sell_signal` (strategy.py lines 92-131). -/
def get_sell_signal (st : VWAPReversionStrategy) (signals : Option Signals)
    (symbol : String) : Bool × VWAPReversionStrategy :=
  match signals with
  | none => (false, st)
  | some s =>
    match s.close, s.vwap, s.rsi with
    | some current_price, some vwap, some rsi =>
        let price_above_threshold :=
          Val.gtb current_price (vwap.mulQ st.vwap_threshold_sell)
        let rsi_over := Val.gtQb rsi st.rsi_overbought
        let sell_signal := price_above_threshold || rsi_over
        let upd := dictSetSignal st.previous_signals symbol
          (if sell_signal then "sell" else "hold")
        (sell_signal,
         if dictContains st.previous_signals symbol then
           { st with previous_signals := upd }
         else st)
    | _, _, _ => (false, st)

/-- Lookup of a key in the `**kwargs` of `update_parameters`. -/
def kwLookup (kwargs : List (String × ℚ)) (k : String) : Option ℚ :=
  (kwargs.find? (fun p => p.1 = k)).map (fun p => p.2)

/-- `VWAPReversionStrategy.update_parameters` (strategy.py lines 160-174):
checks exactly the four keys `vwap_threshold_buy`, `vwap_threshold_sell`,
`rsi_overbought`, `rsi_period` in `kwargs`. -/
def update_parameters (st : VWAPReversionStrategy)
    (kwargs : List (String × ℚ)) : VWAPReversionStrategy :=
  let st1 := match kwLookup kwargs "vwap_threshold_buy" with
    | some v => { st with vwap_threshold_buy := v }
    | none => st
  let st2 := match kwLookup kwargs "vwap_threshold_sell" with
    | some v => { st1 with vwap_threshold_sell := v }
    | none => st1
  let st3 := match kwLookup kwargs "rsi_overbought" with
    | some v => { st2 with rsi_overbought := v }
    | none => st2
  match kwLookup kwargs "rsi_period" with
  | some v => { st3 with rsi_period := v }
  | none => st3

/-! ### Frames and indicators (`indicators.py`) -/

/-- Prefix sums, mirroring pandas `Series.cumsum()`: element `i` is the sum
of elements `0..i`. -/
def cumsum : List ℚ → List ℚ
  | [] => []
  | x :: xs => x :: (cumsum xs).map (fun y => x + y)

/-- An OHLCV data frame: an index of `nrows` rows and named columns.  A
pandas frame is `empty` when either axis has length zero. -/
structure Frame where
  nrows : ℕ
  cols : List (String × List ℚ)
deriving DecidableEq, Repr

/-- `df.empty`. -/
def Frame.isEmpty (df : Frame) : Bool := df.nrows = 0 || df.cols.isEmpty

/-- `name in df.columns`. -/
def Frame.hasCol (df : Frame) (name : String) : Bool :=
  df.cols.any (fun p => p.1 = name)

/-- `df[name]`: the values of a column (defaults to `[]`; the source only
reads a column after checking its presence). -/
def Frame.col (df : Frame) (name : String) : List ℚ :=
  ((df.cols.find? (fun p => p.1 = name)).map (fun p => p.2)).getD []

/-- The columns `validate_data_quality` requires. -/
def required_columns : List String := ["open", "high", "low", "close", "volume"]

/-- `validate_data_quality` (indicators.py lines 102-128). -/
def validate_data_quality (df : Frame) (min_bars : ℕ) : Bool :=
  if df.isEmpty then false
  else if df.nrows < min_bars then false
  else if ¬ (required_columns.all df.hasCol) then false
  else if (df.col "volume").sum = 0 then false
  else true

/-- `calculate_vwap` (indicators.py lines 13-36): cumulative
price·volume over cumulative volume, with typical price
`(high + low + close) / 3`.  Returns the empty series when the frame is
empty or has no volume column. -/
def calculate_vwap (df : Frame) : List ℚ :=
  if df.isEmpty || !(df.hasCol "volume") then []
  else
    let typical_price :=
      List.zipWith (fun hl c => (hl.1 + hl.2 + c) / 3)
        (List.zip (df.col "high") (df.col "low")) (df.col "close")
    let cumulative_volume := cumsum (df.col "volume")
    let cumulative_price_volume :=
      cumsum (List.zipWith (· * ·) typical_price (df.col "volume"))
    List.zipWith (· / ·) cumulative_price_volume cumulative_volume

/-- One row of the frame produced by `calculate_all_indicators`: raw OHLC
cells plus the derived vwap and rsi cells, any of which may be NaN. -/
structure AnnRow where
  close : Val
  high : Val
  low : Val
  vwap : Val
  rsi : Val
deriving DecidableEq, Repr

/-- The annotated frame is its list of rows (empty frame = no rows). -/
def AnnFrame := List AnnRow

/-- `get_latest_signals` (indicators.py lines 76-100): `None` on an empty
frame; otherwise the last row, with NaN→None normalisation applied to vwap
and rsi only — close, high and low are passed through raw. -/
def get_latest_signals (df : AnnFrame) : Option Signals :=
  match df.getLast? with
  | none => none
  | some latest =>
      some { close := some latest.close
             high := some latest.high
             low := some latest.low
             vwap := if pdNotna latest.vwap then some latest.vwap else none
             rsi := if pdNotna latest.rsi then some latest.rsi else none }

/-- Modelled from the spec: the direct VWAP formula
`VWAP[i] = Σ(typicalPrice[0..i] × volume[0..i]) / Σ(volume[0..i])` with
`typicalPrice = (high + low + close) / 3`, stated with indexed sums; used to
compare `calculate_vwap`'s cumulative implementation against it. -/
def vwap_formula (high low close volume : List ℚ) (i : ℕ) : ℚ :=
  (∑ j in Finset.range (i + 1),
      ((high.getD j 0 + low.getD j 0 + close.getD j 0) / 3) * volume.getD j 0) /
  (∑ j in Finset.range (i + 1), volume.getD j 0)

/-! ### Broker execution (`trader.py`) -/

/-- A broker position as returned by `AlpacaTrader.get_positions`. -/
structure Position where
  symbol : String
  qty : ℚ
  side : String
deriving DecidableEq, Repr

/-- A trade row written by `TradeDatabase.log_trade`. -/
structure TradeRecord where
  symbol : String
  side : String
  price : ℚ
  qty : ℚ
  status : String
  order_id : Option String
  stop_loss : Option ℚ
  take_profit : Option ℚ
  reason : Option String
deriving DecidableEq, Repr

/-- The broker API requests the trader issues. -/
inductive BrokerCall where
  | list_positions
  | submit_order (symbol side otype : String) (qty : ℚ) (bracket : Bool)
  | get_latest_quote (symbol : String)
deriving DecidableEq, Repr

/-- Whether a broker call submits an order. -/
def BrokerCall.isOrderSubmission : BrokerCall → Bool
  | .submit_order _ _ _ _ _ => true
  | _ => false

/-- The broker's live state and its responses during one trader entry
point: the position list, the order id returned by each submission
(`none` models an `APIError`/exception) and the latest ask price
(`none` models a quote failure). -/
structure Broker where
  positions : List Position
  bracket_order_id : Option String
  market_order_id : Option String
  ask_price : Option ℚ
deriving DecidableEq, Repr

/-- The mutable settings of `AlpacaTrader`. -/
structure AlpacaTrader where
  position_size : ℚ
  stop_loss_pct : ℚ
  take_profit_pct : ℚ
deriving DecidableEq, Repr

/-- Outcome of a trader entry point: its return value plus, in order, the
broker calls made and the trade rows logged. -/
structure ExecResult where
  ok : Bool
  calls : List BrokerCall
  records : List TradeRecord
deriving DecidableEq, Repr

/-- Python `round(x)`: banker's rounding, ties to even. -/
def pyRound (x : ℚ) : ℤ :=
  let f := ⌊x⌋
  if x - f < 1/2 then f
  else if 1/2 < x - f then f + 1
  else if f % 2 = 0 then f else f + 1

/-- Python `round(x, 2)`. -/
def round2 (x : ℚ) : ℚ := (pyRound (x * 100) : ℚ) / 100

/-- `AlpacaTrader.calculate_position_size` (trader.py lines 141-151). -/
def calculate_position_size (t : AlpacaTrader) (price : ℚ) : ℚ :=
  round2 (t.position_size / price)

/-- `AlpacaTrader.place_bracket_order` (trader.py lines 171-250): submit a
bracket market order; log a `submitted` row on success, a `failed` row when
the broker reports an error.  `ok` is `order is not None`. -/
def place_bracket_order (t : AlpacaTrader) (br : Broker)
    (symbol side : String) (qty current_price : ℚ)
    (reason : Option String) : ExecResult :=
  let stop_loss_price :=
    if side = "buy" then current_price * (1 - t.stop_loss_pct)
    else current_price * (1 + t.stop_loss_pct)
  let take_profit_price :=
    if side = "buy" then current_price * (1 + t.take_profit_pct)
    else current_price * (1 - t.take_profit_pct)
  let call := BrokerCall.submit_order symbol side "market" qty true
  match br.bracket_order_id with
  | some oid =>
      let recd : TradeRecord :=
        { symbol := symbol, side := side, price := current_price, qty := qty,
          status := "submitted", order_id := some oid,
          stop_loss := some stop_loss_price,
          take_profit := some take_profit_price, reason := reason }
      { ok := true, calls := [call], records := [recd] }
  | none =>
      let recd : TradeRecord :=
        { symbol := symbol, side := side, price := current_price, qty := qty,
          status := "failed", order_id := none, stop_loss := none,
          take_profit := none, reason := some "API Error" }
      { ok := false, calls := [call], records := [recd] }

/-- `AlpacaTrader.close_position` (trader.py lines 252-306): re-fetch the
positions, flatten the entire held quantity with a market order on the
inverse side, and log a `submitted` row; any failure (no position, no usable
price, broker exception) returns `False` with no row. -/
def close_position (br : Broker) (symbol : String)
    (reason : Option String) : ExecResult :=
  match br.positions.find? (fun p => p.symbol = symbol) with
  | none => { ok := false, calls := [.list_positions], records := [] }
  | some position =>
      let side := if position.side = "long" then "sell" else "buy"
      let qty := |position.qty|
      match br.ask_price with
      | none =>
          { ok := false, calls := [.list_positions, .get_latest_quote symbol],
            records := [] }
      | some current_price =>
          if current_price = 0 then
            { ok := false,
              calls := [.list_positions, .get_latest_quote symbol],
              records := [] }
          else
            let call := BrokerCall.submit_order symbol side "market" qty false
            match br.market_order_id with
            | none =>
                { ok := false,
                  calls := [.list_positions, .get_latest_quote symbol, call],
                  records := [] }
            | some oid =>
                let recd : TradeRecord :=
                  { symbol := symbol, side := side, price := current_price,
                    qty := qty, status := "submitted", order_id := some oid,
                    stop_loss := none, take_profit := none,
                    reason := some ("Close position: " ++ reason.getD "None") }
                { ok := true,
                  calls := [.list_positions, .get_latest_quote symbol, call],
                  records := [recd] }

/-- `AlpacaTrader.execute_trade` (trader.py lines 325-354). -/
def execute_trade (t : AlpacaTrader) (br : Broker) (symbol signal : String)
    (current_price : ℚ) (reason : Option String) : ExecResult :=
  if signal = "HOLD" then { ok := true, calls := [], records := [] }
  else
    let has_position := br.positions.any (fun p => p.symbol = symbol)
    if signal = "BUY" ∧ has_position = false then
      let qty := calculate_position_size t current_price
      if 0 < qty then
        let r := place_bracket_order t br symbol "buy" qty current_price reason
        { ok := r.ok, calls := BrokerCall.list_positions :: r.calls,
          records := r.records }
      else { ok := true, calls := [.list_positions], records := [] }
    else if signal = "SELL" ∧ has_position = true then
      let r := close_position br symbol reason
      { ok := r.ok, calls := BrokerCall.list_positions :: r.calls,
        records := r.records }
    else { ok := true, calls := [.list_positions], records := [] }

/-- One polling tick reacting to a BUY classification (price and
bracket-submission outcome vary per tick): run `execute_trade` against the
live broker positions, after which the broker holds one new position per
`submitted` buy row (the filled bracket entry). -/
def buy_tick (t : AlpacaTrader) (symbol : String) (ps : List Position)
    (tick : ℚ × Option String) : List Position :=
  let br : Broker :=
    { positions := ps, bracket_order_id := tick.2,
      market_order_id := none, ask_price := none }
  let r := execute_trade t br symbol "BUY" tick.1 none
  ps ++ (r.records.filter (fun rec => rec.status = "submitted")).map
    (fun rec => Position.mk rec.symbol rec.qty "long")

/-- How many open positions the broker holds for a symbol. -/
def countPos (ps : List Position) (symbol : String) : ℕ :=
  (ps.filter (fun p => p.symbol = symbol)).length

/-- Modelled from the spec: the §4.2 BUY rule with `vwap_safety_floor` as a
runtime member of `StrategyParameters`, as the spec describes it; used only
to contrast with `get_buy_signal`, whose floor is the hardcoded constant
0.95 of strategy.py line 77. -/
def buy_signal_spec (vwap_buy_threshold vwap_safety_floor close vwap : ℚ) :
    Bool :=
  decide (close < vwap * vwap_buy_threshold) && decide (vwap < close) &&
    decide (vwap * vwap_safety_floor < close)

/-! ### The polling loops (`vwap_bot.py`, `gui.py`) -/

/-- The dict returned by `get_market_status` (market_hours.py). -/
structure MarketStatus where
  is_open : Bool
  is_premarket : Bool
  is_afterhours : Bool
  is_weekend : Bool
  is_holiday : Bool
deriving DecidableEq, Repr

/-- Observable actions of one loop iteration. -/
inductive BotEvent where
  | log_message
  | account_refresh
  | submit_bracket (symbol : String)
  | submit_market (symbol : String) (qty : ℚ)
  | db_log_trade (symbol side status : String)
deriving DecidableEq, Repr

/-- Whether an event is an order-submission broker call
(`submit_bracket_order` / `submit_market_order`). -/
def BotEvent.isOrderSubmission : BotEvent → Bool
  | .submit_bracket _ => true
  | .submit_market _ _ => true
  | _ => false

/-- The environment one loop iteration reads: the market-session status,
the configured symbols, each symbol's fetched bars, the rsi column computed
by the external `ta` library, and the broker's responses (held quantity,
order-submission outcomes). -/
structure BotEnv where
  status : MarketStatus
  symbols : List String
  bars : String → Frame
  rsi : String → List Val
  position_qty : String → Option ℚ
  bracket_ok : String → Bool
  market_ok : String → Bool

/-- The vwap cell of row `i` after `calculate_all_indicators`: the series
value, NaN when the cumulative volume is zero (pandas `0/0` on the broker's
nonnegative integer volumes) or the series is empty. -/
def vwap_cell (df : Frame) (i : ℕ) : Val :=
  match (calculate_vwap df)[i]?, (cumsum (df.col "volume"))[i]? with
  | some v, some c => if c = 0 then Val.nan else Val.num v
  | _, _ => Val.nan

/-- `calculate_all_indicators` (indicators.py lines 54-74) as a row view:
the raw OHLC columns annotated with the vwap and rsi columns. -/
def Frame.toAnnotated (df : Frame) (rsi : List Val) : AnnFrame :=
  (List.range df.nrows).map (fun i =>
    { close := Val.num ((df.col "close").getD i 0),
      high := Val.num ((df.col "high").getD i 0),
      low := Val.num ((df.col "low").getD i 0),
      vwap := vwap_cell df i,
      rsi := rsi.getD i Val.nan })

/-- `VWAPReversionBot.execute_buy_order` (vwap_bot.py lines 134-179):
submit a bracket order through the broker interface; on success log and
write a `submitted` trade row, otherwise log the failure. -/
def execute_buy_order (env : BotEnv) (symbol : String) : List BotEvent :=
  BotEvent.submit_bracket symbol ::
    (if env.bracket_ok symbol then
      [.db_log_trade symbol "buy" "submitted", .log_message]
    else [.log_message])

/-- `VWAPReversionBot.execute_sell_order` (vwap_bot.py lines 181-227):
no-op without a positive held quantity; otherwise flatten it with a market
order and, on success, write a `submitted` trade row. -/
def execute_sell_order (env : BotEnv) (symbol : String) : List BotEvent :=
  match env.position_qty symbol with
  | none => [.log_message]
  | some qty =>
      if qty ≤ 0 then [.log_message]
      else
        BotEvent.submit_market symbol qty ::
          (if env.market_ok symbol then
            [.db_log_trade symbol "sell" "submitted", .log_message]
          else [.log_message])

/-- `VWAPReversionBot.analyze_symbol` (vwap_bot.py lines 95-132). -/
def analyze_symbol (env : BotEnv) (st : VWAPReversionStrategy)
    (symbol : String) : List BotEvent × VWAPReversionStrategy :=
  let df := env.bars symbol
  if validate_data_quality df 5 = false then ([.log_message], st)
  else
    match get_latest_signals (df.toAnnotated (env.rsi symbol)) with
    | none => ([.log_message], st)
    | some signals =>
        let b := get_buy_signal st (some signals) symbol
        if b.1 then (execute_buy_order env symbol, b.2)
        else
          let sl := get_sell_signal b.2 (some signals) symbol
          if sl.1 then (execute_sell_order env symbol, sl.2)
          else ([.log_message], sl.2)

/-- `VWAPReversionBot.run_strategy` (vwap_bot.py lines 70-93): when the
session is not open, log and return before any symbol is analyzed. -/
def run_strategy (env : BotEnv) (st : VWAPReversionStrategy) :
    List BotEvent × VWAPReversionStrategy :=
  if env.status.is_open = false then ([.log_message], st)
  else
    env.symbols.foldl
      (fun acc symbol =>
        let r := analyze_symbol env acc.2 symbol
        (acc.1 ++ r.1, r.2))
      ([.log_message], st)

/-- One symbol of `TradingBotGUI.update_symbols_data` (gui.py lines
768-803): evaluates the signals but only logs them — the GUI loop places no
orders.  (`continue` on a missing dict emits nothing.) -/
def gui_symbol_events (env : BotEnv) (st : VWAPReversionStrategy)
    (symbol : String) : List BotEvent × VWAPReversionStrategy :=
  let df := env.bars symbol
  if validate_data_quality df 5 = false then ([.log_message], st)
  else
    match get_latest_signals (df.toAnnotated (env.rsi symbol)) with
    | none => ([], st)
    | some signals =>
        let b := get_buy_signal st (some signals) symbol
        if b.1 then ([.log_message], b.2)
        else
          let sl := get_sell_signal b.2 (some signals) symbol
          ([.log_message], sl.2)

/-- The fold step of `update_symbols_data` over the symbol list. -/
def gui_symbol_step (env : BotEnv)
    (acc : List BotEvent × VWAPReversionStrategy) (symbol : String) :
    List BotEvent × VWAPReversionStrategy :=
  let r := gui_symbol_events env acc.2 symbol
  (acc.1 ++ r.1, r.2)

/-- `TradingBotGUI.update_symbols_data` (gui.py lines 768-803). -/
def gui_update_symbols_data (env : BotEnv) (st : VWAPReversionStrategy) :
    List BotEvent × VWAPReversionStrategy :=
  env.symbols.foldl (gui_symbol_step env) ([], st)

/-- One iteration of `TradingBotGUI.run_bot_loop` (gui.py lines 738-766). -/
def gui_run_bot_iteration (env : BotEnv) (st : VWAPReversionStrategy) :
    List BotEvent × VWAPReversionStrategy :=
  if env.status.is_open then
    let r := gui_update_symbols_data env st
    (BotEvent.account_refresh :: BotEvent.log_message :: r.1, r.2)
  else ([.account_refresh, .log_message], st)

/-- A concrete closed-session environment (a weekend). -/
def closedEnv : BotEnv :=
  { status := ⟨false, false, false, true, false⟩, symbols := ["AAPL"],
    bars := fun _ => ⟨0, []⟩, rsi := fun _ => [],
    position_qty := fun _ => none, bracket_ok := fun _ => true,
    market_ok := fun _ => true }

/-- The strategy initialised from the `Config` defaults (config.py). -/
def config_strategy : VWAPReversionStrategy :=
  { vwap_threshold_buy := 99/100, vwap_threshold_sell := 101/100,
    rsi_overbought := 70, rsi_period := 14, previous_signals := [] }

/-! ### Theorems about the signal classifier -/

/-- C1: for a snapshot in which close, vwap, high and low are all non-null,
the VWAP is positive and the buy threshold is below 1, `get_buy_signal`
returns false (in particular at `close = vwap`): condition 1
(`close < vwap × threshold`) and condition 2 (`close > vwap`) cannot hold
of the same bar's close. -/
theorem C1_buy_conditions_exclusive (st : VWAPReversionStrategy) (s : Signals)
    (symbol : String) (c : Val) (w : ℚ)
    (hc : s.close = some c) (hw : s.vwap = some (Val.num w))
    (hh : s.high.isSome = true) (hl : s.low.isSome = true)
    (hwpos : 0 < w) (hthr : st.vwap_threshold_buy < 1) :
    (get_buy_signal st (some s) symbol).1 = false := by
  obtain ⟨hv, hhv⟩ := Option.isSome_iff_exists.mp hh
  obtain ⟨lv, hlv⟩ := Option.isSome_iff_exists.mp hl
  cases c with
  | nan => simp [get_buy_signal, hc, hw, hhv, hlv, Val.ltb, Val.gtb, Val.mulQ]
  | num a =>
      have hlt : w * st.vwap_threshold_buy < w := by nlinarith
      rcases lt_or_le a (w * st.vwap_threshold_buy) with h1 | h1
      · have h2 : ¬ (w < a) := by linarith
        simp [get_buy_signal, hc, hw, hhv, hlv, Val.ltb, Val.gtb, Val.mulQ, h2]
      · have h2 : ¬ (a < w * st.vwap_threshold_buy) := not_lt.mpr h1
        simp [get_buy_signal, hc, hw, hhv, hlv, Val.ltb, Val.gtb, Val.mulQ, h2]

/-- Witness for C1 at the boundary snapshot `close = vwap = 100` with the
default threshold 0.99. -/
theorem C1_buy_conditions_exclusive_witness :
    (get_buy_signal
      { vwap_threshold_buy := 99/100, vwap_threshold_sell := 101/100,
        rsi_overbought := 70, rsi_period := 14, previous_signals := [] }
      (some { close := some (.num 100), high := some (.num 101),
              low := some (.num 99), vwap := some (.num 100), rsi := none })
      "AAPL").1 = false :=
  C1_buy_conditions_exclusive _ _ _ _ _ rfl rfl rfl rfl (by norm_num)
    (by norm_num)

/-- C2: with close, vwap and rsi non-null, `get_sell_signal` is true iff
`close > vwap × vwap_sell_threshold` or `rsi > rsi_overbought`; with
vwap = 100, close = 103, sell threshold 1.01 it is true for every non-null
rsi value, and with vwap = 100, close = 98, rsi = 75, overbought = 70 it is
true although close is below vwap. -/
theorem C2_sell_signal_iff :
    (∀ (st : VWAPReversionStrategy) (s : Signals) (symbol : String) (c w r : ℚ),
      s.close = some (Val.num c) → s.vwap = some (Val.num w) →
      s.rsi = some (Val.num r) →
      ((get_sell_signal st (some s) symbol).1 = true ↔
        (w * st.vwap_threshold_sell < c ∨ st.rsi_overbought < r))) ∧
    (∀ (st : VWAPReversionStrategy) (s : Signals) (symbol : String) (rv : Val),
      st.vwap_threshold_sell = 101/100 → s.close = some (Val.num 103) →
      s.vwap = some (Val.num 100) → s.rsi = some rv →
      (get_sell_signal st (some s) symbol).1 = true) ∧
    (∀ (st : VWAPReversionStrategy) (s : Signals) (symbol : String),
      st.vwap_threshold_sell = 101/100 → st.rsi_overbought = 70 →
      s.close = some (Val.num 98) → s.vwap = some (Val.num 100) →
      s.rsi = some (Val.num 75) →
      (get_sell_signal st (some s) symbol).1 = true) := by
  refine ⟨?_, ?_, ?_⟩
  · intro st s symbol c w r hc hw hr
    simp [get_sell_signal, hc, hw, hr, Val.ltb, Val.gtb, Val.gtQb, Val.mulQ]
  · intro st s symbol rv hth hc hw hr
    simp [get_sell_signal, hc, hw, hr, hth, Val.ltb, Val.gtb, Val.gtQb,
      Val.mulQ]
    norm_num
  · intro st s symbol hth hob hc hw hr
    simp [get_sell_signal, hc, hw, hr, hth, hob, Val.ltb, Val.gtb, Val.gtQb,
      Val.mulQ]
    norm_num

/-- Witness for C2 at the two concrete snapshots of the claim. -/
theorem C2_sell_signal_iff_witness :
    (get_sell_signal
      { vwap_threshold_buy := 99/100, vwap_threshold_sell := 101/100,
        rsi_overbought := 70, rsi_period := 14, previous_signals := [] }
      (some { close := some (.num 103), high := some (.num 104),
              low := some (.num 99), vwap := some (.num 100),
              rsi := some .nan }) "AAPL").1 = true ∧
    (get_sell_signal
      { vwap_threshold_buy := 99/100, vwap_threshold_sell := 101/100,
        rsi_overbought := 70, rsi_period := 14, previous_signals := [] }
      (some { close := some (.num 98), high := some (.num 99),
              low := some (.num 97), vwap := some (.num 100),
              rsi := some (.num 75) }) "AAPL").1 = true :=
  ⟨C2_sell_signal_iff.2.1 _ _ _ _ rfl rfl rfl rfl,
   C2_sell_signal_iff.2.2 _ _ _ rfl rfl rfl rfl rfl⟩

/-- C3: any missing required input (the whole dict, or close/vwap/high/low
for the buy check, or close/vwap/rsi for the sell check) yields HOLD
(false) with the strategy state unchanged, and no exception. -/
theorem C3_missing_inputs_hold :
    (∀ (st : VWAPReversionStrategy) (symbol : String),
      get_buy_signal st none symbol = (false, st) ∧
      get_sell_signal st none symbol = (false, st)) ∧
    (∀ (st : VWAPReversionStrategy) (s : Signals) (symbol : String),
      (s.close = none ∨ s.vwap = none ∨ s.high = none ∨ s.low = none) →
      get_buy_signal st (some s) symbol = (false, st)) ∧
    (∀ (st : VWAPReversionStrategy) (s : Signals) (symbol : String),
      (s.close = none ∨ s.vwap = none ∨ s.rsi = none) →
      get_sell_signal st (some s) symbol = (false, st)) := by
  refine ⟨fun st symbol => ⟨rfl, rfl⟩, ?_, ?_⟩
  · rintro st ⟨sc, sh, sl, sv, sr⟩ symbol h
    cases sc <;> cases sv <;> cases sh <;> cases sl <;>
      simp_all [get_buy_signal]
  · rintro st ⟨sc, sh, sl, sv, sr⟩ symbol h
    cases sc <;> cases sv <;> cases sr <;>
      simp_all [get_sell_signal]

/-- Witness for C3: a snapshot with a null vwap is HOLD for both checks. -/
theorem C3_missing_inputs_hold_witness :
    get_buy_signal
      { vwap_threshold_buy := 99/100, vwap_threshold_sell := 101/100,
        rsi_overbought := 70, rsi_period := 14, previous_signals := [] }
      (some { close := some (.num 100), high := some (.num 101),
              low := some (.num 99), vwap := none, rsi := some (.num 50) })
      "AAPL" =
      (false,
       { vwap_threshold_buy := 99/100, vwap_threshold_sell := 101/100,
         rsi_overbought := 70, rsi_period := 14, previous_signals := [] }) ∧
    get_sell_signal
      { vwap_threshold_buy := 99/100, vwap_threshold_sell := 101/100,
        rsi_overbought := 70, rsi_period := 14, previous_signals := [] }
      (some { close := some (.num 100), high := some (.num 101),
              low := some (.num 99), vwap := none, rsi := some (.num 50) })
      "AAPL" =
      (false,
       { vwap_threshold_buy := 99/100, vwap_threshold_sell := 101/100,
         rsi_overbought := 70, rsi_period := 14, previous_signals := [] }) :=
  ⟨C3_missing_inputs_hold.2.1 _ _ _ (Or.inr (Or.inl rfl)),
   C3_missing_inputs_hold.2.2 _ _ _ (Or.inr (Or.inl rfl))⟩

/-! ### Prefix-sum and list access lemmas -/

theorem cumsum_length (l : List ℚ) : (cumsum l).length = l.length := by
  induction l with
  | nil => rfl
  | cons x xs ih => simp [cumsum, ih]

theorem cumsum_getElem? (l : List ℚ) (i : ℕ) (h : i < l.length) :
    (cumsum l)[i]? = some ((l.take (i + 1)).sum) := by
  induction l generalizing i with
  | nil => simp at h
  | cons x xs ih =>
      cases i with
      | zero => simp [cumsum]
      | succ j =>
          have hj : j < xs.length := by simpa using h
          simp [cumsum, ih j hj, List.take_succ_cons]

theorem sum_take_range (l : List ℚ) (k : ℕ) (hk : k ≤ l.length) :
    (l.take k).sum = ∑ j in Finset.range k, l.getD j 0 := by
  induction l generalizing k with
  | nil =>
      have hk0 : k = 0 := by simpa using hk
      subst hk0
      simp
  | cons x xs ih =>
      cases k with
      | zero => simp
      | succ m =>
          have hm : m ≤ xs.length := by simpa using hk
          rw [List.take_succ_cons, List.sum_cons, ih m hm,
            Finset.sum_range_succ']
          simp [add_comm]

/-! ### Theorems about the indicator engine -/

/-- C6: `validate_data_quality` returns false exactly when the frame is
empty, shorter than `min_bars`, missing one of the columns
open/high/low/close/volume, or has total volume zero. -/
theorem C6_validate_data_quality (df : Frame) (min_bars : ℕ) :
    validate_data_quality df min_bars = false ↔
      (df.isEmpty = true ∨ df.nrows < min_bars ∨
       ¬ (df.hasCol "open" = true ∧ df.hasCol "high" = true ∧
          df.hasCol "low" = true ∧ df.hasCol "close" = true ∧
          df.hasCol "volume" = true) ∨
       (df.col "volume").sum = 0) := by
  unfold validate_data_quality
  split_ifs with h1 h2 h3 h4 <;> simp_all [required_columns]

/-- C7: on a non-empty frame whose OHLCV columns all have `nrows` entries,
`calculate_vwap` produces at every index `i` the value
`Σ_{j≤i}(typicalPrice_j × volume_j) / Σ_{j≤i}(volume_j)`, and whenever the
cumulative volume at `i` is positive and every bar has
`high = low = close = P`, the VWAP at `i` is `P`. -/
theorem C7_calculate_vwap (df : Frame)
    (hvcol : df.hasCol "volume" = true)
    (hn0 : 0 < df.nrows)
    (hhl : (df.col "high").length = df.nrows)
    (hll : (df.col "low").length = df.nrows)
    (hcl : (df.col "close").length = df.nrows)
    (hvl : (df.col "volume").length = df.nrows) :
    (∀ i, i < df.nrows →
      (calculate_vwap df)[i]? =
        some (vwap_formula (df.col "high") (df.col "low") (df.col "close")
          (df.col "volume") i)) ∧
    (∀ P, (∀ j, j < df.nrows → (df.col "high").getD j 0 = P ∧
            (df.col "low").getD j 0 = P ∧ (df.col "close").getD j 0 = P) →
      ∀ i, i < df.nrows → 0 < (((df.col "volume").take (i + 1)).sum) →
        (calculate_vwap df)[i]? = some P) := by
  have hcolsne : df.cols ≠ [] := by
    rcases List.any_eq_true.mp hvcol with ⟨p, hp, _⟩
    intro hnil
    rw [hnil] at hp
    simp at hp
  have hEmpty : df.isEmpty = false := by
    have h1 : df.nrows ≠ 0 := by omega
    simp [Frame.isEmpty, hcolsne, h1]
  have hmain : ∀ i, i < df.nrows →
      (calculate_vwap df)[i]? =
        some (vwap_formula (df.col "high") (df.col "low") (df.col "close")
          (df.col "volume") i) := by
    intro i hi
    have hziplen : ((df.col "high").zip (df.col "low")).length = df.nrows := by
      simp [List.length_zip, hhl, hll]
    have htplen :
        (List.zipWith (fun hl c => (hl.1 + hl.2 + c) / 3)
          ((df.col "high").zip (df.col "low")) (df.col "close")).length =
          df.nrows := by
      simp [List.length_zipWith, hziplen, hcl]
    have hpvlen :
        (List.zipWith (· * ·)
          (List.zipWith (fun hl c => (hl.1 + hl.2 + c) / 3)
            ((df.col "high").zip (df.col "low")) (df.col "close"))
          (df.col "volume")).length = df.nrows := by
      simp [List.length_zipWith, htplen, hvl]
    rw [calculate_vwap, if_neg (by simp [hEmpty, hvcol])]
    rw [List.getElem?_zipWith']
    rw [cumsum_getElem? _ i (by rw [hpvlen]; exact hi),
      cumsum_getElem? _ i (by rw [hvl]; exact hi)]
    simp only [Option.map_some', Option.some_bind]
    congr 1
    rw [vwap_formula,
      sum_take_range _ (i + 1) (by rw [hpvlen]; omega),
      sum_take_range _ (i + 1) (by rw [hvl]; omega)]
    congr 1
    refine Finset.sum_congr rfl ?_
    intro j hj
    have hjn : j < df.nrows := by
      have := Finset.mem_range.mp hj
      omega
    have h1 : j < (List.zipWith (· * ·)
        (List.zipWith (fun hl c => (hl.1 + hl.2 + c) / 3)
          ((df.col "high").zip (df.col "low")) (df.col "close"))
        (df.col "volume")).length := by rw [hpvlen]; exact hjn
    rw [List.getD_eq_getElem _ _ h1, List.getElem_zipWith]
    rw [List.getElem_zipWith]
    rw [List.getElem_zip]
    rw [List.getD_eq_getElem _ _ (by rw [hhl]; exact hjn),
      List.getD_eq_getElem _ _ (by rw [hll]; exact hjn),
      List.getD_eq_getElem _ _ (by rw [hcl]; exact hjn),
      List.getD_eq_getElem _ _ (by rw [hvl]; exact hjn)]
  refine ⟨hmain, ?_⟩
  intro P hconst i hi hpos
  rw [hmain i hi]
  congr 1
  have hsum : ∀ k, k ∈ Finset.range (i + 1) →
      ((df.col "high").getD k 0 + (df.col "low").getD k 0 +
        (df.col "close").getD k 0) / 3 * (df.col "volume").getD k 0 =
      P * (df.col "volume").getD k 0 := by
    intro k hk
    have hkn : k < df.nrows := by
      have := Finset.mem_range.mp hk
      omega
    obtain ⟨e1, e2, e3⟩ := hconst k hkn
    rw [e1, e2, e3]
    ring_nf
  rw [vwap_formula, Finset.sum_congr rfl hsum, ← Finset.mul_sum]
  have hS : (∑ j in Finset.range (i + 1), (df.col "volume").getD j 0) ≠ 0 := by
    rw [← sum_take_range _ (i + 1) (by rw [hvl]; omega)]
    exact ne_of_gt hpos
  simp only [List.getD_eq_getElem?_getD] at hS ⊢
  rw [mul_div_assoc, div_self hS, mul_one]

/-- Witness for C7 on a two-bar constant-price frame (P = 10, volume 5). -/
theorem C7_calculate_vwap_witness :
    (calculate_vwap
      { nrows := 2,
        cols := [("open", [10, 10]), ("high", [10, 10]), ("low", [10, 10]),
                 ("close", [10, 10]), ("volume", [5, 5])] })[1]? =
      some 10 := by
  refine (C7_calculate_vwap
    { nrows := 2,
      cols := [("open", [10, 10]), ("high", [10, 10]), ("low", [10, 10]),
               ("close", [10, 10]), ("volume", [5, 5])] }
    rfl (by decide) rfl rfl rfl rfl).2 10 ?_ 1 (by decide) ?_
  · intro j hj
    interval_cases j <;> exact ⟨rfl, rfl, rfl⟩
  · have hc :
        Frame.col
          { nrows := 2,
            cols := [("open", [10, 10]), ("high", [10, 10]), ("low", [10, 10]),
                     ("close", [10, 10]), ("volume", [5, 5])] }
          "volume" = [5, 5] := rfl
    rw [hc]
    norm_num

/-- C10: on a non-empty annotated frame, `get_latest_signals` maps the last
bar's vwap and rsi to `None` exactly when they are NaN, but passes close,
high and low through raw — so a NaN close survives the strategy's is-None
checks: `get_buy_signal` proceeds to the comparisons (recording the NaN
price in `previous_signals`) and every comparison is false. -/
theorem C10_latest_signals_nan (df : AnnFrame) (latest : AnnRow)
    (sig : Signals) (hlast : df.getLast? = some latest)
    (hsig : get_latest_signals df = some sig) :
    (sig.vwap = none ↔ latest.vwap = Val.nan) ∧
    (sig.rsi = none ↔ latest.rsi = Val.nan) ∧
    sig.close = some latest.close ∧ sig.high = some latest.high ∧
    sig.low = some latest.low ∧
    (∀ (st : VWAPReversionStrategy) (symbol : String),
      latest.close = Val.nan → pdNotna latest.vwap = true →
      get_buy_signal st (some sig) symbol =
        (false,
         { st with previous_signals := dictSet st.previous_signals symbol (PrevSignal.mk Val.nan latest.vwap "hold") })) := by
  rw [get_latest_signals, hlast] at hsig
  have hsig2 := (Option.some_injective _ hsig.symm)
  subst hsig2
  refine ⟨?_, ?_, rfl, rfl, rfl, ?_⟩
  · cases hv : latest.vwap <;> simp [pdNotna, hv]
  · cases hr : latest.rsi <;> simp [pdNotna, hr]
  · intro st symbol hcnan hvna
    have hv : ∃ w, latest.vwap = Val.num w := by
      cases hv : latest.vwap
      · exact ⟨_, rfl⟩
      · rw [hv] at hvna; simp [pdNotna] at hvna
    obtain ⟨w, hw⟩ := hv
    simp [get_buy_signal, hcnan, hw, hvna, Val.ltb, Val.gtb, Val.mulQ, pdNotna]

/-- Witness for C10: a one-row frame whose close and rsi are NaN and whose
vwap is 100: the extracted dict keeps the raw NaN close and nulls the rsi. -/
theorem C10_latest_signals_nan_witness :
    (get_latest_signals
        [{ close := Val.nan, high := Val.num 101, low := Val.num 99,
           vwap := Val.num 100, rsi := Val.nan }] =
      some { close := some Val.nan, high := some (Val.num 101),
             low := some (Val.num 99), vwap := some (Val.num 100),
             rsi := none }) ∧
    (({ close := some Val.nan, high := some (Val.num 101),
        low := some (Val.num 99), vwap := some (Val.num 100),
        rsi := none } : Signals).close = some Val.nan ∧
      (({ close := some Val.nan, high := some (Val.num 101),
          low := some (Val.num 99), vwap := some (Val.num 100),
          rsi := none } : Signals).rsi = none ↔
        (Val.nan : Val) = Val.nan)) := by
  refine ⟨rfl,
    (C10_latest_signals_nan
      [{ close := Val.nan, high := Val.num 101, low := Val.num 99,
         vwap := Val.num 100, rsi := Val.nan }]
      { close := Val.nan, high := Val.num 101, low := Val.num 99,
        vwap := Val.num 100, rsi := Val.nan }
      { close := some Val.nan, high := some (Val.num 101),
        low := some (Val.num 99), vwap := some (Val.num 100), rsi := none }
      rfl rfl).2.2.1, ?_⟩
  exact (C10_latest_signals_nan
    [{ close := Val.nan, high := Val.num 101, low := Val.num 99,
       vwap := Val.num 100, rsi := Val.nan }]
    { close := Val.nan, high := Val.num 101, low := Val.num 99,
      vwap := Val.num 100, rsi := Val.nan }
    { close := some Val.nan, high := some (Val.num 101),
      low := some (Val.num 99), vwap := some (Val.num 100), rsi := none }
    rfl rfl).2.1

/-! ### Theorems about the execution coordinator -/

theorem countPos_append (a b : List Position) (symbol : String) :
    countPos (a ++ b) symbol = countPos a symbol + countPos b symbol := by
  simp [countPos, List.filter_append]

theorem execute_trade_buy_has_pos (t : AlpacaTrader) (br : Broker)
    (symbol : String) (price : ℚ) (reason : Option String)
    (h : br.positions.any (fun p => p.symbol = symbol) = true) :
    execute_trade t br symbol "BUY" price reason =
      { ok := true, calls := [BrokerCall.list_positions], records := [] } := by
  simp [execute_trade, h]

theorem execute_trade_buy_new_positions (t : AlpacaTrader) (br : Broker)
    (symbol : String) (price : ℚ) (reason : Option String) :
    ((execute_trade t br symbol "BUY" price reason).records.filter
        (fun rec => rec.status = "submitted")).map
      (fun rec => Position.mk rec.symbol rec.qty "long") = [] ∨
    ∃ q, ((execute_trade t br symbol "BUY" price reason).records.filter
        (fun rec => rec.status = "submitted")).map
      (fun rec => Position.mk rec.symbol rec.qty "long") =
        [Position.mk symbol q "long"] := by
  by_cases h : br.positions.any (fun p => p.symbol = symbol) = true
  · left
    simp [execute_trade, h]
  · rw [Bool.not_eq_true] at h
    by_cases hq : 0 < calculate_position_size t price
    · cases hoid : br.bracket_order_id with
      | none =>
          left
          simp [execute_trade, h, hq, place_bracket_order, hoid]
      | some oid =>
          right
          refine ⟨calculate_position_size t price, ?_⟩
          simp [execute_trade, h, hq, place_bracket_order, hoid]
    · left
      simp [execute_trade, h, hq]

theorem buy_tick_countPos (t : AlpacaTrader) (symbol : String)
    (ps : List Position) (tk : ℚ × Option String)
    (h : countPos ps symbol ≤ 1) :
    countPos (buy_tick t symbol ps tk) symbol ≤ 1 := by
  rw [buy_tick]
  by_cases hhas : ps.any (fun p => p.symbol = symbol) = true
  · have hrec := execute_trade_buy_has_pos t
      { positions := ps, bracket_order_id := tk.2, market_order_id := none,
        ask_price := none } symbol tk.1 none hhas
    rw [hrec]
    simpa using h
  · have hp0 : countPos ps symbol = 0 := by
      rw [Bool.not_eq_true, List.any_eq_false] at hhas
      simp only [countPos, List.length_eq_zero, List.filter_eq_nil_iff]
      intro p hp
      simpa using hhas p hp
    rcases execute_trade_buy_new_positions t
        { positions := ps, bracket_order_id := tk.2,
          market_order_id := none, ask_price := none } symbol tk.1 none with
      hnew | ⟨q, hnew⟩
    · rw [countPos_append, hnew]
      simpa using h
    · rw [countPos_append, hnew, hp0]
      simp [countPos]

/-- C4: when the freshly fetched broker position list already holds a
position for the symbol, a BUY signal makes no order submission and logs no
`submitted` row (the only broker call is the position fetch); consequently
repeated BUY ticks leave at most one open position for the symbol. -/
theorem C4_buy_idempotent :
    (∀ (t : AlpacaTrader) (br : Broker) (symbol : String) (price : ℚ)
        (reason : Option String),
      br.positions.any (fun p => p.symbol = symbol) = true →
      (execute_trade t br symbol "BUY" price reason).calls =
        [BrokerCall.list_positions] ∧
      (execute_trade t br symbol "BUY" price reason).records = []) ∧
    (∀ (t : AlpacaTrader) (symbol : String)
        (ticks : List (ℚ × Option String)) (ps : List Position),
      countPos ps symbol ≤ 1 →
      countPos (ticks.foldl (buy_tick t symbol) ps) symbol ≤ 1) := by
  constructor
  · intro t br symbol price reason h
    rw [execute_trade_buy_has_pos t br symbol price reason h]
    exact ⟨rfl, rfl⟩
  · intro t symbol ticks
    induction ticks with
    | nil => intro ps h; simpa using h
    | cons tk rest ih =>
        intro ps h
        exact ih (buy_tick t symbol ps tk) (buy_tick_countPos t symbol ps tk h)

/-- Witness for C4: a broker already long AAPL ignores a BUY, and two
successful BUY ticks from a flat book leave a single AAPL position. -/
theorem C4_buy_idempotent_witness :
    (execute_trade ⟨100, 3/100, 8/100⟩
      ⟨[⟨"AAPL", 1, "long"⟩], some "oid1", none, none⟩
      "AAPL" "BUY" 50 none).records = [] ∧
    countPos
      (List.foldl (buy_tick ⟨100, 3/100, 8/100⟩ "AAPL") []
        [(50, some "o1"), (50, some "o2")]) "AAPL" ≤ 1 :=
  ⟨(C4_buy_idempotent.1 ⟨100, 3/100, 8/100⟩
      ⟨[⟨"AAPL", 1, "long"⟩], some "oid1", none, none⟩ "AAPL" 50 none rfl).2,
   C4_buy_idempotent.2 ⟨100, 3/100, 8/100⟩ "AAPL"
     [(50, some "o1"), (50, some "o2")] [] (by decide)⟩

/-- C5: a SELL signal for a symbol with no freshly fetched broker position
is a no-op: the position fetch is the only broker call, no order is
submitted and no trade row is written. -/
theorem C5_sell_without_position_noop (t : AlpacaTrader) (br : Broker)
    (symbol : String) (price : ℚ) (reason : Option String)
    (h : br.positions.any (fun p => p.symbol = symbol) = false) :
    execute_trade t br symbol "SELL" price reason =
      { ok := true, calls := [BrokerCall.list_positions], records := [] } := by
  simp [execute_trade, h]

/-- Witness for C5: a SELL on a flat book is a no-op. -/
theorem C5_sell_without_position_noop_witness :
    execute_trade ⟨100, 3/100, 8/100⟩
      ⟨[⟨"NVDA", 2, "long"⟩], none, some "m1", some 50⟩
      "AAPL" "SELL" 50 none =
      { ok := true, calls := [BrokerCall.list_positions], records := [] } :=
  C5_sell_without_position_noop _ _ _ _ _ rfl

/-! ### Theorems about the polling loops and runtime parameters -/

theorem gui_symbol_events_only_logs (env : BotEnv)
    (st : VWAPReversionStrategy) (symbol : String) :
    ∀ e ∈ (gui_symbol_events env st symbol).1, e = BotEvent.log_message := by
  intro e he
  simp only [gui_symbol_events] at he
  split at he
  · simpa using he
  · split at he
    · simp at he
    · split at he
      · simpa using he
      · simpa using he

theorem gui_foldl_only_logs (env : BotEnv) (symbols : List String) :
    ∀ (acc : List BotEvent × VWAPReversionStrategy),
      (∀ e ∈ acc.1, e = BotEvent.log_message) →
      ∀ e ∈ (symbols.foldl (gui_symbol_step env) acc).1,
        e = BotEvent.log_message := by
  induction symbols with
  | nil => intro acc h; simpa using h
  | cons s rest ih =>
      intro acc h
      apply ih
      intro e he
      rw [gui_symbol_step] at he
      rcases List.mem_append.mp he with h1 | h1
      · exact h e h1
      · exact gui_symbol_events_only_logs env acc.2 s e h1

/-- C8: a loop iteration whose market-session status is not open makes no
bracket-order or market-order submission: `run_strategy` returns before any
symbol is analyzed, and the GUI loop's iteration only logs signals and
refreshes the account (it never submits, open or closed). -/
theorem C8_session_closed_no_orders :
    (∀ (env : BotEnv) (st : VWAPReversionStrategy),
      env.status.is_open = false →
      ∀ e ∈ (run_strategy env st).1, e.isOrderSubmission = false) ∧
    (∀ (env : BotEnv) (st : VWAPReversionStrategy),
      ∀ e ∈ (gui_run_bot_iteration env st).1,
        e.isOrderSubmission = false) := by
  constructor
  · intro env st h e he
    rw [run_strategy, if_pos h] at he
    simp at he
    subst he
    rfl
  · intro env st e he
    rw [gui_run_bot_iteration] at he
    by_cases hopen : env.status.is_open
    · rw [if_pos hopen] at he
      rcases List.mem_cons.mp he with h1 | h1
      · subst h1; rfl
      · rcases List.mem_cons.mp h1 with h2 | h2
        · subst h2; rfl
        · have h3 := gui_foldl_only_logs env env.symbols ([], st)
            (by simp) e h2
          subst h3
          rfl
    · rw [if_neg hopen] at he
      rcases List.mem_cons.mp he with h1 | h1
      · subst h1; rfl
      · simp at h1
        subst h1
        rfl

/-- Witness for C8: a weekend iteration over a configured symbol emits no
order submission. -/
theorem C8_session_closed_no_orders_witness :
    closedEnv.status.is_open = false ∧
    List.Forall (fun e => BotEvent.isOrderSubmission e = false)
      (run_strategy closedEnv config_strategy).1 := by
  refine ⟨rfl, ?_⟩
  rw [List.forall_iff_forall_mem]
  intro e he
  exact C8_session_closed_no_orders.1 closedEnv config_strategy rfl e he

/-- C9 (amended): `update_parameters` replaces exactly the provided fields
among the four runtime parameters vwap_threshold_buy, vwap_threshold_sell,
rsi_overbought and rsi_period; absent fields and the per-symbol signal
memory keep their prior values, and any other key — in particular
vwap_safety_floor — is ignored. -/
theorem C9_update_parameters_frame (st : VWAPReversionStrategy)
    (kwargs : List (String × ℚ)) :
    ((update_parameters st kwargs).vwap_threshold_buy =
        (kwLookup kwargs "vwap_threshold_buy").getD st.vwap_threshold_buy ∧
      (update_parameters st kwargs).vwap_threshold_sell =
        (kwLookup kwargs "vwap_threshold_sell").getD st.vwap_threshold_sell ∧
      (update_parameters st kwargs).rsi_overbought =
        (kwLookup kwargs "rsi_overbought").getD st.rsi_overbought ∧
      (update_parameters st kwargs).rsi_period =
        (kwLookup kwargs "rsi_period").getD st.rsi_period ∧
      (update_parameters st kwargs).previous_signals =
        st.previous_signals) ∧
    (∀ (key : String) (v : ℚ), key ≠ "vwap_threshold_buy" →
      key ≠ "vwap_threshold_sell" → key ≠ "rsi_overbought" →
      key ≠ "rsi_period" → update_parameters st [(key, v)] = st) := by
  constructor
  · cases h1 : kwLookup kwargs "vwap_threshold_buy" <;>
    cases h2 : kwLookup kwargs "vwap_threshold_sell" <;>
    cases h3 : kwLookup kwargs "rsi_overbought" <;>
    cases h4 : kwLookup kwargs "rsi_period" <;>
      simp [update_parameters, h1, h2, h3, h4]
  · intro key v hk1 hk2 hk3 hk4
    simp [update_parameters, kwLookup, List.find?, hk1, hk2, hk3, hk4]

/-- Witness for C9: providing only `vwap_safety_floor` leaves the strategy
unchanged. -/
theorem C9_update_parameters_frame_witness :
    update_parameters config_strategy [("vwap_safety_floor", 1/2)] =
      config_strategy :=
  (C9_update_parameters_frame config_strategy
      [("vwap_safety_floor", 1/2)]).2 "vwap_safety_floor" (1/2)
    (by decide) (by decide) (by decide) (by decide)

/-- Counterexample to C9 as stated: `vwap_safety_floor` is not a runtime
parameter of the strategy.  Passing it to `update_parameters` changes
nothing, and on a snapshot (close = -60, vwap = -100, buy threshold 1/2)
`get_buy_signal` still fires through the hardcoded 0.95 floor, while the
spec's rule with the provided floor 1/2 would reject it. -/
theorem C9_safety_floor_not_runtime_parameter :
    update_parameters ⟨1/2, 101/100, 70, 14, []⟩
        [("vwap_safety_floor", 1/2)] = ⟨1/2, 101/100, 70, 14, []⟩ ∧
    (get_buy_signal
      (update_parameters ⟨1/2, 101/100, 70, 14, []⟩
        [("vwap_safety_floor", 1/2)])
      (some ⟨some (Val.num (-60)), some (Val.num (-59)),
        some (Val.num (-61)), some (Val.num (-100)), none⟩)
      "AAPL").1 = true ∧
    buy_signal_spec (1/2) (1/2) (-60) (-100) = false := by
  have h0 : update_parameters ⟨1/2, 101/100, 70, 14, []⟩
      [("vwap_safety_floor", 1/2)] =
      (⟨1/2, 101/100, 70, 14, []⟩ : VWAPReversionStrategy) := rfl
  refine ⟨h0, ?_, ?_⟩
  · rw [h0]
    simp [get_buy_signal, Val.ltb, Val.gtb, Val.mulQ]
    norm_num
  · have h3 : ¬ ((-100 : ℚ) * (1/2) < -60) := by norm_num
    simp [buy_signal_spec, h3]
    intro h1 h2
    norm_num

end VWAPBot
